import Mathlib

/-!
Shallow embedding of the `briefcase` debugger-plugin configuration code
(`src/briefcase/debuggers/base.py`) and the Linux AppImage build command
(`src/briefcase/platforms/linux/appimage.py`), together with theorems that
settle the specification claims about them.

Python-level operations used by the source (`str.split`, `str.strip`,
`int(...)`, `x or y` on optional values, `dict.update`) are modelled by
explicit executable Lean functions below, each documented with the Python
behaviour it captures.
-/

namespace Briefcase

/-! ## Models of the Python primitives used by the source -/

/-- Python `str.split(sep)` for a single-character separator, on the
character list of the string: `"".split(",") == [""]`, and every occurrence
of the separator starts a new (possibly empty) field. -/
def pySplitChar (sep : Char) : List Char → List (List Char)
  | [] => [[]]
  | c :: rest =>
    match pySplitChar sep rest with
    | [] => [[]]
    | h :: t => if c = sep then [] :: h :: t else (c :: h) :: t

/-- Python `s.split(sep)` for a single-character separator `sep`. -/
def pySplit (s : String) (sep : Char) : List String :=
  (pySplitChar sep s.toList).map String.mk

/-- ASCII whitespace, as recognised by Python `str.strip()` and `int(str)`.
(The full Python versions also strip non-ASCII Unicode whitespace; the
strings handled by this code are ASCII.) -/
def isPySpace (c : Char) : Bool :=
  c = ' ' || c = '\t' || c = '\n' || c = '\r' || c = '\x0b' || c = '\x0c'

def isAsciiDigit (c : Char) : Bool :=
  '0' ≤ c && c ≤ '9'

def digitVal (c : Char) : Nat :=
  c.toNat - '0'.toNat

/-- Digits of a Python decimal integer literal after the first digit:
single underscores are permitted between digits, never doubled or trailing. -/
def pyDigitsAux : List Char → Nat → Option Nat
  | [], acc => some acc
  | '_' :: c :: rest, acc =>
    if isAsciiDigit c then pyDigitsAux rest (acc * 10 + digitVal c) else none
  | ['_'], _ => none
  | c :: rest, acc =>
    if isAsciiDigit c then pyDigitsAux rest (acc * 10 + digitVal c) else none

/-- A non-empty run of decimal digits with Python underscore grouping rules
(the first character must be a digit). -/
def pyDigits : List Char → Option Nat
  | [] => none
  | c :: rest => if isAsciiDigit c then pyDigitsAux rest (digitVal c) else none

/-- Model of Python's built-in `int(str)` on its ASCII fragment: leading and
trailing whitespace is stripped, an optional `+`/`-` sign is allowed, and the
rest must be a non-empty digit run (with underscore grouping). Returns `none`
exactly when Python raises `ValueError`. Note that signed values are
accepted: `int("-5") == -5`. -/
def pyInt (s : String) : Option Int :=
  let cs := ((s.toList.dropWhile isPySpace).reverse.dropWhile isPySpace).reverse
  match cs with
  | '+' :: rest => (pyDigits rest).map (fun n => (n : Int))
  | '-' :: rest => (pyDigits rest).map (fun n => -(n : Int))
  | rest => (pyDigits rest).map (fun n => (n : Int))

/-- Python `str.strip()` (ASCII fragment). -/
def pyStrip (s : String) : String :=
  String.mk (((s.toList.dropWhile isPySpace).reverse.dropWhile isPySpace).reverse)

/-- Python `x or d` where `x : str | None`: `None` and the empty string are
falsy and resolve to the default. -/
def pyOrStr (x : Option String) (d : String) : String :=
  match x with
  | none => d
  | some s => if s = "" then d else s

/-- Python `x or d` where `x : int | None`: `None` and `0` are falsy and
resolve to the default. -/
def pyOrInt (x : Option Int) (d : Int) : Int :=
  match x with
  | none => d
  | some v => if v = 0 then d else v

/-! ## `briefcase.debuggers.base`: configuration parsing -/

/-- The two values of the `DebuggerMode` `StrEnum` (base.py lines 13-15). -/
inductive DebuggerMode where
  | server
  | client
deriving DecidableEq, Repr

/-- The string value of a `DebuggerMode` member (`StrEnum` value). -/
def DebuggerMode.value : DebuggerMode → String
  | .server => "server"
  | .client => "client"

/-- Python `DebuggerMode(x)` for a string `x`: `StrEnum` lookup by value;
any other string raises `ValueError` (modelled as `none`). -/
def DebuggerMode.fromValue : String → Option DebuggerMode
  | "server" => some .server
  | "client" => some .client
  | _ => none

/-- The `DebuggerConfig` dataclass (base.py lines 18-22). -/
structure DebuggerConfig where
  mode : Option String
  ip : Option String
  port : Option Int
deriving DecidableEq, Repr

/-- The two failure shapes of `remote_debugger_config_from_string`, both
raised as `BriefcaseCommandError` in the source and distinguished by their
message: "Invalid remote debugger specification: {s}" and
"Invalid remote debugger port: {port}". -/
inductive ParseError where
  | invalidSpec (spec : String)
  | invalidPort (port : String)
deriving DecidableEq, Repr

/-- base.py lines 68-74: the final port-conversion step of
`remote_debugger_config_from_string`, entered with a non-`None` port string
`p`; `int(p)` failure raises the "Invalid remote debugger port" error. -/
def parse_port_value (debugger : Option String) (mode ip : Option String) (p : String) :
    Except ParseError (Option String × DebuggerConfig) :=
  match pyInt p with
  | some n => .ok (debugger, { mode := mode, ip := ip, port := some n })
  | none => .error (.invalidPort p)

/-- base.py lines 54-66: the `ip_and_port` block of
`remote_debugger_config_from_string`. One `:`-field is a port (the empty
string meaning "absent"); two fields are ip then port; any other count is an
invalid specification (reported with the original config string). -/
def parse_ip_and_port (debugger : Option String) (mode : Option String)
    (ip_and_port : String) (original : String) :
    Except ParseError (Option String × DebuggerConfig) :=
  match pySplit ip_and_port ':' with
  | [p] =>
    if p = "" then .ok (debugger, { mode := mode, ip := none, port := none })
    else parse_port_value debugger mode none p
  | [i, p] => parse_port_value debugger mode (some i) p
  | _ => .error (.invalidSpec original)

/-- base.py lines 25-74, `remote_debugger_config_from_string`: split the
config string on `,` into 1-3 fields (debugger name, optional ip/port group,
optional mode); any other count is an invalid specification. The local
variables of the source are initialised to `None`, so the returned debugger
name is modelled as `Option String` (every non-error path assigns it). -/
def remote_debugger_config_from_string (s : String) :
    Except ParseError (Option String × DebuggerConfig) :=
  match pySplit s ',' with
  | [d] => .ok (some d, { mode := none, ip := none, port := none })
  | [d, g] => parse_ip_and_port (some d) none g s
  | [d, g, m] => parse_ip_and_port (some d) (some m) g s
  | _ => .error (.invalidSpec s)

/-! ## `briefcase.debuggers.base`: the `BaseDebugger` plugin contract -/

/-- The class-level declarations a concrete `BaseDebugger` subclass provides
(base.py lines 83-86): `supported_modes` and `default_mode` are abstract
class variables; `default_ip` and `default_port` have base-class defaults. -/
structure DebuggerClass where
  supported_modes : List DebuggerMode
  default_mode : DebuggerMode
  default_ip : String := "localhost"
  default_port : Int := 5678
deriving DecidableEq, Repr

/-- The per-instance state a successful `BaseDebugger.__init__` establishes
(the console collaborator carries no verified state and is omitted). -/
structure Debugger where
  mode : DebuggerMode
  ip : String
  port : Int
deriving DecidableEq, Repr

/-- The two ways `BaseDebugger.__init__` can fail: `DebuggerMode(value)`
raises `ValueError` for a string that is not a member value, and the
`supported_modes` check raises `BriefcaseConfigError`
("Unsupported debugger mode: ..."). -/
inductive InitError where
  | valueError (value : String)
  | unsupportedMode (mode : DebuggerMode)
deriving DecidableEq, Repr

/-- The argument of `DebuggerMode(config.mode or self.default_mode)` in
base.py line 90: the configured mode string when it is present and
non-empty, else the value of the class's `default_mode`. -/
def resolved_mode_value (cls : DebuggerClass) (config : DebuggerConfig) : String :=
  pyOrStr config.mode cls.default_mode.value

/-- base.py lines 88-97, `BaseDebugger.__init__`: convert the resolved mode
string through the `DebuggerMode` enum (`ValueError` on a non-member value),
resolve ip and port through Python `or` (so `""` and `0` fall back to the
defaults), then reject a mode outside `supported_modes` with
`BriefcaseConfigError`. -/
def BaseDebugger.init (cls : DebuggerClass) (config : DebuggerConfig) :
    Except InitError Debugger :=
  match DebuggerMode.fromValue (resolved_mode_value cls config) with
  | none => .error (.valueError (resolved_mode_value cls config))
  | some mode =>
    let ip := pyOrStr config.ip cls.default_ip
    let port := pyOrInt config.port cls.default_port
    if mode ∈ cls.supported_modes then .ok { mode := mode, ip := ip, port := port }
    else .error (.unsupportedMode mode)

/-- Does a construction attempt fail with the `BriefcaseConfigError`
("Unsupported debugger mode") branch? -/
def failsWithUnsupportedMode (r : Except InitError Debugger) : Bool :=
  match r with
  | .error (.unsupportedMode _) => true
  | _ => false

/-- The module name of the generated startup payload (base.py line 77). -/
def STARTUP_MODULE : String := "_briefcase"

/-- One file written by `write_startup_file`. -/
structure FileWrite where
  path : String
  content : String
deriving DecidableEq, Repr

/-- base.py lines 114-134, `BaseDebugger.write_startup_file`: write the
startup payload at `{app_path}/_briefcase.py` (its text, produced by the
concrete plugin's abstract `create_startup_file`, is the parameter
`startup_code`), and, when `pth_folder_path` is supplied, a second file
`{pth_folder_path}/_briefcase.pth` whose whole content is the import
directive for the payload module. Paths are modelled as strings joined
with `/`. -/
def write_startup_file (startup_code : String) (app_path : String)
    (pth_folder_path : Option String) : List FileWrite :=
  [{ path := app_path ++ "/" ++ STARTUP_MODULE ++ ".py", content := startup_code }] ++
    match pth_folder_path with
    | some pth =>
      [{ path := pth ++ "/" ++ STARTUP_MODULE ++ ".pth",
         content := "import " ++ STARTUP_MODULE }]
    | none => []

/-! ## `briefcase.platforms.linux.appimage`: host verification -/

/-- `UnsupportedHostError`, with the message it carries. -/
inductive HostVerifyError where
  | unsupportedHost (reason : String)
deriving DecidableEq, Repr

/-- appimage.py line 35: the class attribute `supported_host_os` of the
AppImage mixins ({"Darwin", "Linux"}). -/
def supported_host_os : List String := ["Darwin", "Linux"]

/-- appimage.py lines 36-38. -/
def supported_host_os_reason : String :=
  "Linux AppImages can only be built on Linux, or on macOS using Docker."

/-- Modelled from the spec: the base `Command.verify_host` (the
`Unverified -> HostVerified` transition of `briefcase.commands.base`, which
is not under src/) checks `tools.host_os` against the command class's
`supported_host_os` allow-list and raises `UnsupportedHostError` with the
class's reason string when the host OS is not in it. -/
def base_verify_host (host_os : String) : Except HostVerifyError Unit :=
  if host_os ∈ supported_host_os then .ok ()
  else .error (.unsupportedHost supported_host_os_reason)

/-- appimage.py lines 172-177, `LinuxAppImageMixin.verify_host`: run the
inherited check (whose failure propagates), then, only when Docker is not
in use, additionally require the host OS to be exactly `"Linux"`. -/
def verify_host (use_docker : Bool) (host_os : String) : Except HostVerifyError Unit :=
  match base_verify_host host_os with
  | .error e => .error e
  | .ok _ =>
    if !use_docker && host_os != "Linux" then
      .error (.unsupportedHost supported_host_os_reason)
    else .ok ()

/-! ## `briefcase.platforms.linux.appimage`: the build step

`LinuxAppImageBuildCommand.build_app` is modelled as a pure function from
the data it reads (the app configuration and the tool/process collaborators
it queries) to a trace of what it does: the environment and argument vector
of the single `linuxdeploy` invocation, whether the app context was queried
for its `PATH`, the error raised, and the `chmod` calls performed. -/

/-- A linuxdeploy plugin as returned by `verify_plugins`: its declared
environment variables (`plugin.env`, an insertion-ordered dict) and its
install location (`plugin.file_path`). -/
structure LinuxdeployPlugin where
  env : List (String × String)
  file_path : String
deriving DecidableEq, Repr

/-- The fields of the app configuration read by `build_app` and the path
helpers it calls. `linuxdeploy_plugins` is `none` when the attribute is
absent from the configuration (reading it then raises `AttributeError`). -/
structure AppImageApp where
  app_name : String
  formal_name : String
  version : String
  bundle_identifier : String
  linuxdeploy_plugins : Option (List String)

/-- The collaborators `build_app` consults, as data: `verify_plugins` is
`tools.linuxdeploy.verify_plugins` (an insertion-ordered name-to-plugin
dict, modelled as an association list); `context_path_output` is the raw
text that `app_context.check_output(["/bin/sh", "-c", "echo $PATH"])`
returns inside the build context; `run_exit_ok` tells whether the
`linuxdeploy` invocation exits with status 0; `bundle_path` is the value of
`self.bundle_path(app)`. -/
structure BuildTools where
  host_arch : String
  pathsep : String
  is_deep_debug : Bool
  verify_plugins : List String → List (String × LinuxdeployPlugin)
  context_path_output : String
  linuxdeploy_arch : String
  linuxdeploy_file_path : String
  linuxdeploy_file_name : String
  bundle_path : String
  so_folders : List String
  run_exit_ok : Bool

/-- The empty environment dict. -/
def emptyEnv : String → Option String := fun _ => none

/-- `env[k] = v`. -/
def envSet (e : String → Option String) (k v : String) : String → Option String :=
  fun q => if q = k then some v else e q

/-- Python `env.update(kvs)`: items applied in order, a later binding of the
same key overriding an earlier one. -/
def envUpdate (e : String → Option String) (kvs : List (String × String)) :
    String → Option String :=
  kvs.foldl (fun acc kv => envSet acc kv.1 kv.2) e

/-- The value the last binding of `k` in an ordered binding list gives it. -/
def lastBinding (k : String) : List (String × String) → Option String
  | [] => none
  | kv :: rest =>
    match lastBinding k rest with
    | some v => some v
    | none => if k = kv.1 then some kv.2 else none

/-- Python `sep.join(l)`. -/
def pyJoin (sep : String) : List String → String
  | [] => ""
  | [x] => x
  | x :: y :: rest => x ++ sep ++ pyJoin sep (y :: rest)

/-- Insert into an ascending list (stable). -/
def insertSorted (x : String) : List String → List String
  | [] => [x]
  | y :: ys => if x ≤ y then x :: y :: ys else y :: insertSorted x ys

/-- Python `sorted(...)` over a set of strings: duplicates removed,
ascending order. -/
def pySortedSet (l : List String) : List String :=
  (l.eraseDups).foldr insertSorted []

/-- Python `str.replace(a, b)` for single-character `a`, `b`
(used by `binary_name` for `formal_name.replace(" ", "_")`). -/
def replaceChar (s : String) (a b : Char) : String :=
  String.mk (s.toList.map (fun c => if c = a then b else c))

/-- appimage.py lines 47-50, `binary_name`:
`f"{safe_name}-{app.version}-{arch}.AppImage"`. -/
def binary_name (t : BuildTools) (app : AppImageApp) : String :=
  replaceChar app.formal_name ' ' '_' ++ "-" ++ app.version ++ "-" ++
    t.linuxdeploy_arch ++ ".AppImage"

/-- appimage.py lines 41-42, `appdir_path`. -/
def appdir_path (t : BuildTools) (app : AppImageApp) : String :=
  t.bundle_path ++ "/" ++ app.formal_name ++ ".AppDir"

/-- What one run of `build_app` did. -/
structure BuildTrace where
  queried_context_path : Bool
  plugins : List (String × LinuxdeployPlugin)
  run_env : String → Option String
  run_args : List String
  error : Option String
  chmod_calls : List (String × Nat)

/-- appimage.py lines 262-361, `LinuxAppImageBuildCommand.build_app`.

The first block (lines 270-295) reads `app.linuxdeploy_plugins`; when the
attribute is absent the whole block is skipped via the `AttributeError`
handler with `plugins = {}` and no environment entries. Otherwise the
verified plugins' declared variables are merged into `env` in discovery
order, then `env["PATH"]` is set to the plugin install locations prepended
(with `os.pathsep`) to the stripped `PATH` captured from the app context.

The build block (lines 297-361) then sets `LINUXDEPLOY_OUTPUT_VERSION`,
`DISABLE_COPYRIGHT_FILES_DEPLOYMENT`, `APPIMAGE_EXTRACT_AND_RUN`, `ARCH`
(and `DEBUG` under deep debug), computes the argument vector with
`--deploy-deps-only` for each sorted `.so` folder and `--plugin` for each
plugin name, and issues the single `linuxdeploy` run. A non-zero exit
raises `BriefcaseCommandError(f"Error while building app {app.app_name}.")`
and skips the `chmod`; a zero exit is followed by
`chmod(binary_path, 0o755)`. -/
def build_app (t : BuildTools) (app : AppImageApp) : BuildTrace :=
  let phase1 : List (String × LinuxdeployPlugin) × Bool × (String → Option String) :=
    match app.linuxdeploy_plugins with
    | some plugin_specs =>
      let plugins := t.verify_plugins plugin_specs
      let base_path := pyStrip t.context_path_output
      let env := plugins.foldl (fun acc p => envUpdate acc p.2.env) emptyEnv
      let env := envSet env "PATH"
        (pyJoin t.pathsep ((plugins.map (fun p => p.2.file_path)) ++ [base_path]))
      (plugins, true, env)
    | none => ([], false, emptyEnv)
  let plugins := phase1.1
  let env := phase1.2.2
  let env := envSet env "LINUXDEPLOY_OUTPUT_VERSION" app.version
  let env := envSet env "DISABLE_COPYRIGHT_FILES_DEPLOYMENT" "1"
  let env := envSet env "APPIMAGE_EXTRACT_AND_RUN" "1"
  let env := envSet env "ARCH" t.host_arch
  let env := if t.is_deep_debug then envSet env "DEBUG" "1" else env
  let additional_args :=
    (pySortedSet t.so_folders).foldr
      (fun folder acc => "--deploy-deps-only" :: folder :: acc) [] ++
    (plugins.map Prod.fst).foldr (fun name acc => "--plugin" :: name :: acc) []
  let run_args :=
    [t.linuxdeploy_file_path ++ "/" ++ t.linuxdeploy_file_name,
     "--appdir", appdir_path t app,
     "--desktop-file", appdir_path t app ++ "/" ++ app.bundle_identifier ++ ".desktop",
     "--output", "appimage",
     if t.is_deep_debug then "-v0" else "-v1"] ++ additional_args
  { queried_context_path := phase1.2.1
    plugins := plugins
    run_env := env
    run_args := run_args
    error :=
      if t.run_exit_ok then none
      else some ("Error while building app " ++ app.app_name ++ ".")
    chmod_calls :=
      if t.run_exit_ok then [(t.bundle_path ++ "/" ++ binary_name t app, 0o755)]
      else [] }

/-- The `BuildEnvironment` assembled in the precedence order the
specification's build-orchestrator contract states it: static policy
variables first, then the plugin-declared variables (discovery order), then
the computed `PATH` — later entries overriding earlier ones. Written from
the spec's words, to be compared with the environment `build_app`
actually passes to the `linuxdeploy` invocation. -/
def build_env_spec_order (t : BuildTools) (app : AppImageApp) : String → Option String :=
  match app.linuxdeploy_plugins with
  | none => emptyEnv
  | some plugin_specs =>
    let plugins := t.verify_plugins plugin_specs
    let env := envSet emptyEnv "LINUXDEPLOY_OUTPUT_VERSION" app.version
    let env := envSet env "DISABLE_COPYRIGHT_FILES_DEPLOYMENT" "1"
    let env := envSet env "APPIMAGE_EXTRACT_AND_RUN" "1"
    let env := envSet env "ARCH" t.host_arch
    let env := if t.is_deep_debug then envSet env "DEBUG" "1" else env
    let env := plugins.foldl (fun acc p => envUpdate acc p.2.env) env
    envSet env "PATH"
      (pyJoin t.pathsep ((plugins.map (fun p => p.2.file_path)) ++
        [pyStrip t.context_path_output]))

/-! ## Theorems: the configuration grammar (claims about the parser) -/

/-- Helper: the port handling of the ip/port block, for both group shapes
(a lone non-empty port field, or an address field followed by a port
field): an `int(...)`-parsable value succeeds with that integer, any other
value fails with the "Invalid remote debugger port" error. -/
theorem parse_ip_and_port_port_semantics (dbg mode : Option String) (g s p : String)
    (hgrp : (pySplit g ':' = [p] ∧ p ≠ "") ∨ ∃ i, pySplit g ':' = [i, p]) :
    (∀ n : Int, pyInt p = some n →
      ∃ ip, parse_ip_and_port dbg mode g s =
        .ok (dbg, { mode := mode, ip := ip, port := some n })) ∧
    (pyInt p = none →
      parse_ip_and_port dbg mode g s = .error (.invalidPort p)) := by
  rcases hgrp with ⟨h1, hne⟩ | ⟨i, h2⟩
  · constructor
    · intro n hn
      refine ⟨none, ?_⟩
      simp [parse_ip_and_port, h1, hne, parse_port_value, hn]
    · intro hn
      simp [parse_ip_and_port, h1, hne, parse_port_value, hn]
  · constructor
    · intro n hn
      refine ⟨some i, ?_⟩
      simp [parse_ip_and_port, h2, parse_port_value, hn]
    · intro hn
      simp [parse_ip_and_port, h2, parse_port_value, hn]

/-- C3 counterexample: parsing the empty configuration string does *not*
return a `None` name. `"".split(",") == [""]`, so the first field is the
empty string and the returned name is `""`, not `None`. -/
theorem parse_empty_string_name_cex :
    remote_debugger_config_from_string "" =
      .ok (some "", { mode := none, ip := none, port := none }) ∧
    remote_debugger_config_from_string "" ≠
      .ok (none, { mode := none, ip := none, port := none }) := by
  constructor
  · rfl
  · rw [show remote_debugger_config_from_string "" =
      .ok (some "", { mode := none, ip := none, port := none }) from rfl]
    simp

/-- C3 (amended): parsing the empty configuration string returns the empty
string as the name (not `None`) together with a configuration whose mode,
address and port are all `None`. -/
theorem parse_empty_string_eq :
    remote_debugger_config_from_string "" =
      .ok (some "", { mode := none, ip := none, port := none }) := rfl

/-- C4 counterexample: `"-5"` is a non-empty port value that is not a
non-negative integer, yet the parser succeeds with port `-5` instead of
failing with the invalid-port error, because Python `int("-5")` succeeds. -/
theorem parse_negative_port_cex :
    remote_debugger_config_from_string "pdb,-5" =
      .ok (some "pdb", { mode := none, ip := none, port := some (-5) }) ∧
    (-5 : Int) < 0 := by
  exact ⟨rfl, by decide⟩

/-- C4 (amended): for every configuration string whose comma split is
`[name, group]` or `[name, group, mode]` and whose group carries a
non-empty port value `p` (either as the lone `:`-field or after an address
field): if `p` parses under Python `int(...)` — which also accepts signed
values — the parser succeeds with exactly that (possibly negative) integer
as the port, and otherwise it fails with the invalid-port error. In
particular `parse("pdb,abc")` fails with the invalid-port error. -/
theorem parse_port_int_semantics (s d g p : String)
    (hsplit : pySplit s ',' = [d, g] ∨ ∃ m, pySplit s ',' = [d, g, m])
    (hgrp : (pySplit g ':' = [p] ∧ p ≠ "") ∨ ∃ i, pySplit g ':' = [i, p]) :
    ((∀ n : Int, pyInt p = some n →
      ∃ mode ip, remote_debugger_config_from_string s =
        .ok (some d, { mode := mode, ip := ip, port := some n })) ∧
    (pyInt p = none →
      remote_debugger_config_from_string s = .error (.invalidPort p))) ∧
    remote_debugger_config_from_string "pdb,abc" = .error (.invalidPort "abc") := by
  refine ⟨?_, rfl⟩
  rcases hsplit with h | ⟨m, h⟩
  · have hp := parse_ip_and_port_port_semantics (some d) none g s p hgrp
    constructor
    · intro n hn
      rcases hp.1 n hn with ⟨ip, hip⟩
      exact ⟨none, ip, by simp [remote_debugger_config_from_string, h, hip]⟩
    · intro hn
      simp [remote_debugger_config_from_string, h, hp.2 hn]
  · have hp := parse_ip_and_port_port_semantics (some d) (some m) g s p hgrp
    constructor
    · intro n hn
      rcases hp.1 n hn with ⟨ip, hip⟩
      exact ⟨some m, ip, by simp [remote_debugger_config_from_string, h, hip]⟩
    · intro hn
      simp [remote_debugger_config_from_string, h, hp.2 hn]

/-- C4 witness: the amended theorem applied to `"pdb,abc"` (invalid-port
failure) and to `"pdb,-5"` (a signed value is accepted, not rejected). -/
theorem parse_port_int_semantics_witness :
    remote_debugger_config_from_string "pdb,abc" = .error (.invalidPort "abc") ∧
    remote_debugger_config_from_string "pdb,-5" ≠ .error (.invalidPort "-5") := by
  have habc := parse_port_int_semantics "pdb,abc" "pdb" "abc" "abc"
    (Or.inl rfl) (Or.inl ⟨rfl, by decide⟩)
  refine ⟨habc.1.2 rfl, ?_⟩
  have h5 := parse_port_int_semantics "pdb,-5" "pdb" "-5" "-5"
    (Or.inl rfl) (Or.inl ⟨rfl, by decide⟩)
  obtain ⟨mode, ip, hmode⟩ := h5.1.1 (-5) rfl
  rw [hmode]
  simp

/-- C5: the comma split of the configuration string routes parsing: one
field is a bare name, two fields add an ip/port group, three fields add a
mode, and every other comma field count fails with the invalid-spec error;
when the group is present, one colon sub-field is treated as a port (the
empty string meaning "absent", not zero), two sub-fields are address then
port, and every other colon sub-field count fails with the invalid-spec
error. -/
theorem parse_field_counts (s : String) :
    ((pySplit s ',').length = 0 ∨ 4 ≤ (pySplit s ',').length →
      remote_debugger_config_from_string s = .error (.invalidSpec s)) ∧
    (∀ d, pySplit s ',' = [d] →
      remote_debugger_config_from_string s =
        .ok (some d, { mode := none, ip := none, port := none })) ∧
    (∀ d g mode, ((pySplit s ',' = [d, g] ∧ mode = none) ∨
        (∃ m, pySplit s ',' = [d, g, m] ∧ mode = some m)) →
      ((pySplit g ':').length = 0 ∨ 3 ≤ (pySplit g ':').length →
        remote_debugger_config_from_string s = .error (.invalidSpec s)) ∧
      (pySplit g ':' = [""] →
        remote_debugger_config_from_string s =
          .ok (some d, { mode := mode, ip := none, port := none })) ∧
      (∀ p, pySplit g ':' = [p] → p ≠ "" →
        remote_debugger_config_from_string s =
          parse_port_value (some d) mode none p) ∧
      (∀ i p, pySplit g ':' = [i, p] →
        remote_debugger_config_from_string s =
          parse_port_value (some d) mode (some i) p)) := by
  refine ⟨?_, ?_, ?_⟩
  · intro hlen
    rcases hl : pySplit s ',' with _ | ⟨a, _ | ⟨b, _ | ⟨c, _ | ⟨e, rest⟩⟩⟩⟩
    · simp only [remote_debugger_config_from_string, hl]
    · rw [hl] at hlen; simp only [List.length_cons, List.length_nil] at hlen; omega
    · rw [hl] at hlen; simp only [List.length_cons, List.length_nil] at hlen; omega
    · rw [hl] at hlen; simp only [List.length_cons, List.length_nil] at hlen; omega
    · simp only [remote_debugger_config_from_string, hl]
  · intro d hl
    simp [remote_debugger_config_from_string, hl]
  · intro d g mode hsplit
    have hgoal : remote_debugger_config_from_string s = parse_ip_and_port (some d) mode g s := by
      rcases hsplit with ⟨h, hm⟩ | ⟨m, h, hm⟩ <;> subst hm <;>
        simp [remote_debugger_config_from_string, h]
    refine ⟨?_, ?_, ?_, ?_⟩
    · intro hlen
      rw [hgoal]
      rcases hl : pySplit g ':' with _ | ⟨a, _ | ⟨b, _ | ⟨c, rest⟩⟩⟩
      · simp only [parse_ip_and_port, hl]
      · rw [hl] at hlen; simp only [List.length_cons, List.length_nil] at hlen; omega
      · rw [hl] at hlen; simp only [List.length_cons, List.length_nil] at hlen; omega
      · simp only [parse_ip_and_port, hl]
    · intro hl
      rw [hgoal]
      simp [parse_ip_and_port, hl]
    · intro p hl hne
      rw [hgoal]
      simp [parse_ip_and_port, hl, hne]
    · intro i p hl
      rw [hgoal]
      simp [parse_ip_and_port, hl]

/-- C5 witness: the field-count theorem applied to concrete strings of each
shape (four comma fields, three colon sub-fields, a bare name, and an empty
middle field). -/
theorem parse_field_counts_witness :
    remote_debugger_config_from_string "a,b,c,d" = .error (.invalidSpec "a,b,c,d") ∧
    remote_debugger_config_from_string "pdb,1:2:3" = .error (.invalidSpec "pdb,1:2:3") ∧
    remote_debugger_config_from_string "pdb" =
      .ok (some "pdb", { mode := none, ip := none, port := none }) ∧
    remote_debugger_config_from_string "x,,server" =
      .ok (some "x", { mode := some "server", ip := none, port := none }) := by
  refine ⟨?_, ?_, ?_, ?_⟩
  · exact (parse_field_counts "a,b,c,d").1 (by decide)
  · exact (((parse_field_counts "pdb,1:2:3").2.2 "pdb" "1:2:3" none
      (Or.inl ⟨rfl, rfl⟩)).1 (by decide))
  · exact (parse_field_counts "pdb").2.1 "pdb" rfl
  · exact ((parse_field_counts "x,,server").2.2 "x" "" (some "server")
      (Or.inr ⟨"server", rfl, rfl⟩)).2.1 rfl

/-! ## Theorems: the plugin contract (claims about `BaseDebugger`) -/

/-- A concrete plugin class supporting only server mode, and a
configuration whose mode string is not a `DebuggerMode` member value. -/
def modeCexClass : DebuggerClass :=
  { supported_modes := [.server], default_mode := .server }

def modeCexConfig : DebuggerConfig :=
  { mode := some "banana", ip := none, port := none }

/-- C1 counterexample: for the configuration `mode="banana"` the resolved
mode is outside the class's `supported_modes`, yet construction does not
fail with the unsupported-mode (`BriefcaseConfigError`) branch — it fails
earlier, with the `ValueError` that `DebuggerMode("banana")` raises. -/
theorem init_invalid_mode_string_cex :
    resolved_mode_value modeCexClass modeCexConfig = "banana" ∧
    "banana" ∉ modeCexClass.supported_modes.map DebuggerMode.value ∧
    BaseDebugger.init modeCexClass modeCexConfig = .error (.valueError "banana") ∧
    failsWithUnsupportedMode (BaseDebugger.init modeCexClass modeCexConfig) = false := by
  exact ⟨rfl, by decide, rfl, rfl⟩

/-- C1 (amended): at construction, the resolved mode string (the configured
mode when present and non-empty, else the class default) is converted
through the `DebuggerMode` enum. When it is a member value whose mode is
outside the class's `supported_modes`, construction fails with the
unsupported-mode `BriefcaseConfigError`; when it is not a member value,
construction fails with the enum's `ValueError` instead. The check happens
only at construction: every successfully constructed instance has a
supported mode, and no later operation re-checks it. -/
theorem init_mode_validation (cls : DebuggerClass) (config : DebuggerConfig) :
    (∀ m : DebuggerMode,
      DebuggerMode.fromValue (resolved_mode_value cls config) = some m →
      m ∉ cls.supported_modes →
      BaseDebugger.init cls config = .error (.unsupportedMode m)) ∧
    (DebuggerMode.fromValue (resolved_mode_value cls config) = none →
      BaseDebugger.init cls config =
        .error (.valueError (resolved_mode_value cls config))) ∧
    (∀ dbg : Debugger, BaseDebugger.init cls config = .ok dbg →
      dbg.mode ∈ cls.supported_modes) := by
  refine ⟨?_, ?_, ?_⟩
  · intro m hm hnot
    simp [BaseDebugger.init, hm, hnot]
  · intro hm
    simp [BaseDebugger.init, hm]
  · intro dbg h
    rcases hf : DebuggerMode.fromValue (resolved_mode_value cls config) with _ | m
    · rw [BaseDebugger.init, hf] at h
      cases h
    · rw [BaseDebugger.init, hf] at h
      by_cases hmem : m ∈ cls.supported_modes
      · simp only [hmem, if_true] at h
        cases h
        exact hmem
      · simp [hmem] at h

/-- C1 witness: the amended theorem applied to a server-only class with a
configured `"client"` mode (unsupported member value) and to the
`"banana"` configuration (non-member value). -/
theorem init_mode_validation_witness :
    BaseDebugger.init modeCexClass { mode := some "client", ip := none, port := none } =
      .error (.unsupportedMode .client) ∧
    BaseDebugger.init modeCexClass modeCexConfig = .error (.valueError "banana") := by
  constructor
  · exact (init_mode_validation modeCexClass
      { mode := some "client", ip := none, port := none }).1 .client rfl (by decide)
  · exact (init_mode_validation modeCexClass modeCexConfig).2.1 rfl

/-- C9: Python `config.port or self.default_port` treats the falsy port `0`
like an absent one, so constructing any plugin from a configuration whose
port is the integer `0` resolves the port to the class `default_port`; the
base-class value of `default_port` is `5678`. -/
theorem init_port_zero_default (cls : DebuggerClass) (config : DebuggerConfig)
    (dbg : Debugger) (hp : config.port = some 0)
    (h : BaseDebugger.init cls config = .ok dbg) :
    dbg.port = cls.default_port ∧
    ({ supported_modes := cls.supported_modes,
       default_mode := cls.default_mode : DebuggerClass }).default_port = 5678 := by
  refine ⟨?_, rfl⟩
  rcases hf : DebuggerMode.fromValue (resolved_mode_value cls config) with _ | m
  · rw [BaseDebugger.init, hf] at h
    cases h
  · rw [BaseDebugger.init, hf] at h
    by_cases hmem : m ∈ cls.supported_modes
    · simp only [hmem, if_true] at h
      cases h
      simp [pyOrInt, hp]
    · simp [hmem] at h

def portZeroConfig : DebuggerConfig := { mode := none, ip := none, port := some 0 }

/-- C9 witness: a server-only class built from a port-`0` configuration
yields the default port `5678`. -/
theorem init_port_zero_default_witness :
    Debugger.port { mode := .server, ip := "localhost", port := 5678 } =
      modeCexClass.default_port ∧
    modeCexClass.default_port = 5678 := by
  have h := init_port_zero_default modeCexClass portZeroConfig
    { mode := .server, ip := "localhost", port := 5678 } rfl rfl
  exact ⟨h.1, rfl⟩

/-- C8: installing the startup payload with an autoload (`.pth`) location
writes exactly two files — the payload `_briefcase.py` in the application
root and the marker `_briefcase.pth` in the autoload location whose entire
content is the single import directive for the payload module — and
installing without one writes exactly the payload file. -/
theorem write_startup_file_writes (startup_code app_path : String) :
    write_startup_file startup_code app_path none =
      [{ path := app_path ++ "/" ++ STARTUP_MODULE ++ ".py",
         content := startup_code }] ∧
    (write_startup_file startup_code app_path none).length = 1 ∧
    (∀ pth : String,
      write_startup_file startup_code app_path (some pth) =
        [{ path := app_path ++ "/" ++ STARTUP_MODULE ++ ".py",
           content := startup_code },
         { path := pth ++ "/" ++ STARTUP_MODULE ++ ".pth",
           content := "import " ++ STARTUP_MODULE }]) ∧
    (∀ pth : String, (write_startup_file startup_code app_path (some pth)).length = 2) := by
  exact ⟨rfl, rfl, fun pth => rfl, fun pth => rfl⟩

/-! ## Theorems: host verification (claim C7) -/

/-- C7: when the Docker backend is selected the AppImage-specific host-OS
check is skipped — `verify_host` adds nothing beyond the inherited
allow-list check; when the native backend is selected the check is
enforced — a host OS other than Linux fails with the unsupported-host
error, and Linux passes. The backend selection is a boolean, so exactly one
of the two policies applies. -/
theorem verify_host_policy (use_docker : Bool) (host_os : String) :
    (use_docker = true → verify_host use_docker host_os = base_verify_host host_os) ∧
    (use_docker = false → host_os ≠ "Linux" →
      verify_host use_docker host_os =
        .error (.unsupportedHost supported_host_os_reason)) ∧
    (use_docker = false → host_os = "Linux" →
      verify_host use_docker host_os = .ok ()) ∧
    ((use_docker = true) ↔ ¬(use_docker = false)) := by
  refine ⟨?_, ?_, ?_, ?_⟩
  · intro hd
    subst hd
    rcases hb : base_verify_host host_os with e | u
    · simp [verify_host, hb]
    · simp [verify_host, hb]
  · intro hd hlin
    subst hd
    by_cases hc : host_os ∈ supported_host_os
    · have hb : base_verify_host host_os = .ok () := by simp [base_verify_host, hc]
      have hne : (host_os != "Linux") = true := bne_iff_ne.mpr hlin
      simp [verify_host, hb, hne]
    · have hb : base_verify_host host_os =
          .error (.unsupportedHost supported_host_os_reason) := by
        simp [base_verify_host, hc]
      simp [verify_host, hb]
  · intro hd hlin
    subst hd
    subst hlin
    rfl
  · cases use_docker <;> simp

/-- C7 witness: the policy theorem applied on a Darwin host with and
without Docker (spec-modelled base check from the briefcase base command). -/
theorem verify_host_policy_witness :
    verify_host false "Darwin" = .error (.unsupportedHost supported_host_os_reason) ∧
    verify_host true "Darwin" = base_verify_host "Darwin" ∧
    verify_host false "Linux" = .ok () := by
  refine ⟨?_, ?_, ?_⟩
  · exact (verify_host_policy false "Darwin").2.1 rfl (by decide)
  · exact (verify_host_policy true "Darwin").1 rfl
  · exact (verify_host_policy false "Linux").2.2.1 rfl rfl

/-! ## Theorems: the build orchestrator (claims C2, C6, C10) -/

/-- Looking up a key after a dict `update` sees the last binding in the
applied item list, falling back to the previous environment. -/
theorem envUpdate_apply (e : String → Option String)
    (kvs : List (String × String)) (k : String) :
    envUpdate e kvs k =
      match lastBinding k kvs with
      | some v => some v
      | none => e k := by
  induction kvs generalizing e with
  | nil => rfl
  | cons kv rest ih =>
    show envUpdate (envSet e kv.1 kv.2) rest k = _
    rw [ih]
    rcases h : lastBinding k rest with _ | v
    · simp only [lastBinding, h, envSet]
      by_cases hk : k = kv.1 <;> simp [hk]
    · simp [lastBinding, h]

/-- The last binding of a key in an appended binding list: the second list
wins when it binds the key. -/
theorem lastBinding_append (k : String) (l1 l2 : List (String × String)) :
    lastBinding k (l1 ++ l2) =
      match lastBinding k l2 with
      | some v => some v
      | none => lastBinding k l1 := by
  induction l1 with
  | nil =>
    rcases h : lastBinding k l2 with _ | v <;> simp [lastBinding, h]
  | cons kv l1r ihl =>
    simp only [List.cons_append, lastBinding, List.append_eq]
    rw [ihl]
    rcases h2 : lastBinding k l2 with _ | v <;>
      rcases h1 : lastBinding k l1r with _ | w <;> simp [h1, h2]

/-- Folding `env.update(plugin.env)` over the discovered plugins gives each
key the last binding across all the plugins' declared variables in
discovery order (last-discovered wins). -/
theorem plugins_env_fold_apply (e : String → Option String)
    (ps : List (String × LinuxdeployPlugin)) (k : String) :
    (ps.foldl (fun acc p => envUpdate acc p.2.env) e) k =
      match lastBinding k ((ps.map (fun p => p.2.env)).flatten) with
      | some v => some v
      | none => e k := by
  induction ps generalizing e with
  | nil => rfl
  | cons p rest ih =>
    show (rest.foldl (fun acc q => envUpdate acc q.2.env) (envUpdate e p.2.env)) k = _
    rw [ih, envUpdate_apply]
    simp only [List.map_cons, List.flatten_cons, lastBinding_append]
    rcases hX : lastBinding k ((rest.map (fun q => q.2.env)).flatten) with _ | v <;>
      rcases hp : lastBinding k p.2.env with _ | w <;> simp [hX, hp]

/-- A plugin that declares an `ARCH` environment variable of its own,
colliding with the static policy variable of the same name. -/
def envCexPlugin : LinuxdeployPlugin :=
  { env := [("ARCH", "plugin-arch")], file_path := "/plugins/gtk" }

def envCexTools : BuildTools :=
  { host_arch := "x86_64"
    pathsep := ":"
    is_deep_debug := false
    verify_plugins := fun _ => [("gtk", envCexPlugin)]
    context_path_output := "/usr/bin\n"
    linuxdeploy_arch := "x86_64"
    linuxdeploy_file_path := "/tools"
    linuxdeploy_file_name := "linuxdeploy-x86_64.AppImage"
    bundle_path := "/build/myapp"
    so_folders := []
    run_exit_ok := true }

def envCexApp : AppImageApp :=
  { app_name := "myapp"
    formal_name := "My App"
    version := "1.2.3"
    bundle_identifier := "com.example.myapp"
    linuxdeploy_plugins := some ["gtk"] }

/-- C2 counterexample: the claimed merge order (static policy variables
first, then plugin variables, then `PATH`) would let a plugin's `ARCH`
override the static `ARCH`; the code applies plugin variables first and the
static policy variables last, so the environment actually passed to the
build invocation carries the static `ARCH`, not the plugin's. -/
theorem build_env_precedence_cex :
    (build_app envCexTools envCexApp).run_env "ARCH" = some "x86_64" ∧
    build_env_spec_order envCexTools envCexApp "ARCH" = some "plugin-arch" ∧
    (build_app envCexTools envCexApp).run_env "ARCH" ≠
      build_env_spec_order envCexTools envCexApp "ARCH" := by
  refine ⟨rfl, rfl, ?_⟩
  rw [show (build_app envCexTools envCexApp).run_env "ARCH" = some "x86_64" from rfl,
    show build_env_spec_order envCexTools envCexApp "ARCH" = some "plugin-arch" from rfl]
  simp

/-- C2 (amended): when an auxiliary-plugin list is declared, the build
environment is assembled by merging, with later entries overriding earlier
ones, in this order: (1) plugin-declared variables (in discovery order,
last-discovered plugin winning on collisions), (2) the `PATH` variable
formed by prepending every discovered plugin's install location to the
search path queried live from the execution context (stripped), (3) the
static policy variables (output version, copyright-file suppression,
self-extracting execution, target architecture, and `DEBUG` under deep
debug), which therefore override any colliding plugin variable. -/
theorem build_env_characterization (t : BuildTools) (app : AppImageApp)
    (specs : List String) (happ : app.linuxdeploy_plugins = some specs) :
    (build_app t app).queried_context_path = true ∧
    (build_app t app).run_env "PATH" =
      some (pyJoin t.pathsep
        (((t.verify_plugins specs).map (fun p => p.2.file_path)) ++
          [pyStrip t.context_path_output])) ∧
    (build_app t app).run_env "LINUXDEPLOY_OUTPUT_VERSION" = some app.version ∧
    (build_app t app).run_env "DISABLE_COPYRIGHT_FILES_DEPLOYMENT" = some "1" ∧
    (build_app t app).run_env "APPIMAGE_EXTRACT_AND_RUN" = some "1" ∧
    (build_app t app).run_env "ARCH" = some t.host_arch ∧
    (t.is_deep_debug = true → (build_app t app).run_env "DEBUG" = some "1") ∧
    (∀ k, k ≠ "PATH" → k ≠ "LINUXDEPLOY_OUTPUT_VERSION" →
      k ≠ "DISABLE_COPYRIGHT_FILES_DEPLOYMENT" → k ≠ "APPIMAGE_EXTRACT_AND_RUN" →
      k ≠ "ARCH" → k ≠ "DEBUG" →
      (build_app t app).run_env k =
        lastBinding k (((t.verify_plugins specs).map (fun p => p.2.env)).flatten)) := by
  refine ⟨?_, ?_, ?_, ?_, ?_, ?_, ?_, ?_⟩
  · simp [build_app, happ]
  · cases hdd : t.is_deep_debug <;> simp [build_app, happ, hdd, envSet]
  · cases hdd : t.is_deep_debug <;> simp [build_app, happ, hdd, envSet]
  · cases hdd : t.is_deep_debug <;> simp [build_app, happ, hdd, envSet]
  · cases hdd : t.is_deep_debug <;> simp [build_app, happ, hdd, envSet]
  · cases hdd : t.is_deep_debug <;> simp [build_app, happ, hdd, envSet]
  · intro hdd
    simp [build_app, happ, hdd, envSet]
  · intro k h1 h2 h3 h4 h5 h6
    have hfold := plugins_env_fold_apply emptyEnv (t.verify_plugins specs) k
    cases hdd : t.is_deep_debug <;>
      (simp [build_app, happ, hdd, envSet, h1, h2, h3, h4, h5, h6]
       rw [hfold]
       rcases hlb : lastBinding k (((t.verify_plugins specs).map (fun p => p.2.env)).flatten)
         with _ | v <;> simp [emptyEnv, hlb])

/-- C2 witness: the characterization applied to the concrete build world
(plugin `gtk` declaring `ARCH`), showing the live-queried `PATH`, the
static `ARCH`, and the plugin's own variable lookup. -/
theorem build_env_characterization_witness :
    (build_app envCexTools envCexApp).queried_context_path = true ∧
    (build_app envCexTools envCexApp).run_env "PATH" = some "/plugins/gtk:/usr/bin" ∧
    (build_app envCexTools envCexApp).run_env "ARCH" = some "x86_64" ∧
    (build_app envCexTools envCexApp).run_env "MYVAR" = none := by
  have h := build_env_characterization envCexTools envCexApp ["gtk"] rfl
  refine ⟨h.1, ?_, h.2.2.2.2.2.1, ?_⟩
  · rw [h.2.1]
    rfl
  · rw [h.2.2.2.2.2.2.2 "MYVAR" (by decide) (by decide) (by decide) (by decide)
      (by decide) (by decide)]
    rfl

/-- C6: a non-zero exit of the single build invocation raises the
build-failure error naming the application and no `chmod` of the artifact
is attempted; a zero exit performs exactly the `0o755` permission change on
the produced artifact. -/
theorem build_exit_handling (t : BuildTools) (app : AppImageApp) :
    (t.run_exit_ok = false →
      (build_app t app).error =
        some ("Error while building app " ++ app.app_name ++ ".") ∧
      (build_app t app).chmod_calls = []) ∧
    (t.run_exit_ok = true →
      (build_app t app).error = none ∧
      (build_app t app).chmod_calls =
        [(t.bundle_path ++ "/" ++ binary_name t app, 0o755)]) := by
  constructor <;> intro h <;> constructor <;> simp [build_app, h]

def buildFailTools : BuildTools := { envCexTools with run_exit_ok := false }

/-- C6 witness: the exit-handling theorem applied to concrete failing and
succeeding build worlds. -/
theorem build_exit_handling_witness :
    (build_app buildFailTools envCexApp).error =
      some "Error while building app myapp." ∧
    (build_app buildFailTools envCexApp).chmod_calls = [] ∧
    (build_app envCexTools envCexApp).error = none ∧
    (build_app envCexTools envCexApp).chmod_calls =
      [("/build/myapp/My_App-1.2.3-x86_64.AppImage", 0o755)] := by
  have hf := (build_exit_handling buildFailTools envCexApp).1 rfl
  have hs := (build_exit_handling envCexTools envCexApp).2 rfl
  exact ⟨hf.1, hf.2, hs.1, hs.2⟩

/-- C10: when the app configuration declares no `linuxdeploy_plugins`
attribute, the build proceeds with an empty plugin set and no error from
the plugin phase (a successful build invocation completes the build), the
execution context is never queried for its search path, no plugin
environment variables are added, and `PATH` is not set in the build
environment at all. -/
theorem build_no_plugins_attribute (t : BuildTools) (app : AppImageApp)
    (happ : app.linuxdeploy_plugins = none) :
    (build_app t app).queried_context_path = false ∧
    (build_app t app).plugins = [] ∧
    (build_app t app).run_env "PATH" = none ∧
    (∀ k, k ≠ "LINUXDEPLOY_OUTPUT_VERSION" → k ≠ "DISABLE_COPYRIGHT_FILES_DEPLOYMENT" →
      k ≠ "APPIMAGE_EXTRACT_AND_RUN" → k ≠ "ARCH" → k ≠ "DEBUG" →
      (build_app t app).run_env k = none) ∧
    (t.run_exit_ok = true → (build_app t app).error = none) := by
  refine ⟨?_, ?_, ?_, ?_, ?_⟩
  · simp [build_app, happ]
  · simp [build_app, happ]
  · cases hdd : t.is_deep_debug <;> simp [build_app, happ, hdd, envSet, emptyEnv]
  · intro k h1 h2 h3 h4 h5
    cases hdd : t.is_deep_debug <;>
      simp [build_app, happ, hdd, envSet, emptyEnv, h1, h2, h3, h4, h5]
  · intro h
    simp [build_app, happ, h]

def noPluginsApp : AppImageApp := { envCexApp with linuxdeploy_plugins := none }

/-- C10 witness: the theorem applied to a concrete app without the
`linuxdeploy_plugins` attribute. -/
theorem build_no_plugins_attribute_witness :
    (build_app envCexTools noPluginsApp).queried_context_path = false ∧
    (build_app envCexTools noPluginsApp).plugins = [] ∧
    (build_app envCexTools noPluginsApp).run_env "PATH" = none ∧
    (build_app envCexTools noPluginsApp).run_env "SOME_PLUGIN_VAR" = none ∧
    (build_app envCexTools noPluginsApp).error = none := by
  have h := build_no_plugins_attribute envCexTools noPluginsApp rfl
  exact ⟨h.1, h.2.1, h.2.2.1,
    h.2.2.2.1 "SOME_PLUGIN_VAR" (by decide) (by decide) (by decide) (by decide) (by decide),
    h.2.2.2.2 rfl⟩

end Briefcase
